import Mathlib

/-
Shallow embedding of the rating-aggregation and query-construction core of a
REST backend for books / authors / publishers / reviews (an Express +
Mongoose application).

Conventions of the embedding:
* MongoDB ObjectIds are opaque 24-hex-char strings in the source; they are
  modelled as `Nat` identifiers (the hex-pattern checks of the validators are
  noted where they occur but identifiers themselves are opaque).
* JavaScript numbers holding ratings and counters are integers in every code
  path modelled here; the `$avg` aggregation divides with floating point; it
  is modelled with exact rational division (`Rat`), which agrees with IEEE
  doubles on the concrete inputs evaluated below.
* Mongoose documents with a fixed schema are modelled as Lean structures.
  For the strict-mode update semantics of `findByIdAndUpdate` (non-schema
  paths are silently dropped) an association-list document model is used,
  together with the literal list of paths declared by the schema.
* `Date.now` timestamps are opaque `Nat` instants supplied by the caller.
-/

namespace Cse341

/-- One stored Review document (`src/models/Review.js`, the `reviewSchema`):
title, content, rating 1..5, optional `book` ref, optional `author` ref,
required `reviewer` ref, `helpful` counter, moderation `status` drawn from
Published / Pending / Hidden / Flagged, and a creation timestamp. -/
structure ReviewDoc where
  rid : Nat
  title : String
  content : String
  rating : Int
  book : Option Nat
  author : Option Nat
  reviewer : Nat
  helpful : Nat
  status : String
  createdAt : Nat
deriving DecidableEq, Repr

/-- The slice of a stored Book document (`src/models/Book.js`) read or
written by the aggregate maintainer: identity plus the two derived fields
`averageRating` (default 0) and `ratingCount` (default 0).  The remaining
schema fields are never read nor written by the operations modelled here. -/
structure BookDoc where
  bid : Nat
  title : String
  averageRating : Rat
  ratingCount : Nat
deriving DecidableEq, Repr

/-- A Mongo field value, for the association-list document model used to
state strict-mode update semantics. -/
inductive MongoValue where
  | num : Rat → MongoValue
  | str : String → MongoValue
deriving DecidableEq, Repr

/-- A schemaless view of a document: an association list from path to value. -/
abbrev MongoDoc := List (String × MongoValue)

/-- Set one path of a document, replacing an existing binding or appending. -/
def setPath : MongoDoc → String → MongoValue → MongoDoc
  | [], k, v => [(k, v)]
  | (k₀, v₀) :: rest, k, v =>
      if k₀ = k then (k, v) :: rest else (k₀, v₀) :: setPath rest k v

/-- Mongoose strict-mode update application (the default for this codebase:
no schema sets `strict: false`): each path of the update document is applied
only when the schema declares it; undeclared paths are silently dropped. -/
def applyStrictUpdate (schemaPaths : List String) (doc : MongoDoc)
    (upd : MongoDoc) : MongoDoc :=
  upd.foldl (fun d kv => if kv.1 ∈ schemaPaths then setPath d kv.1 kv.2 else d) doc

/-- The paths declared by `authorSchema` in `src/models/Author.js` (top-level
fields, plus `createdAt`/`updatedAt` added by `timestamps: true` and `_id`).
Note: no `averageRating` and no `ratingCount` path is declared. -/
def authorSchemaPaths : List String :=
  ["_id", "firstName", "lastName", "penName", "bio", "birthDate", "deathDate",
   "nationality", "website", "email", "phone", "profileImage", "genres",
   "languages", "awards", "socialMedia", "booksPublished", "status",
   "createdBy", "createdAt", "updatedAt"]

/-- The database state visible to the modelled operations: the Book
collection, the Author collection (schemaless view, keyed by id), and the
Review collection. -/
structure Db where
  books : List BookDoc
  authors : List (Nat × MongoDoc)
  reviews : List ReviewDoc
deriving DecidableEq, Repr

/-- Reviews matched by `{ book: bookId, status: 'Published' }` (the `$match`
stage of `reviewSchema.statics.calculateBookRating`). -/
def publishedBookReviews (db : Db) (bookId : Nat) : List ReviewDoc :=
  db.reviews.filter fun r => r.book == some bookId && r.status == "Published"

/-- Reviews matched by `{ author: authorId, status: 'Published' }` (the
`$match` stage of `reviewSchema.statics.calculateAuthorRating`). -/
def publishedAuthorReviews (db : Db) (authorId : Nat) : List ReviewDoc :=
  db.reviews.filter fun r => r.author == some authorId && r.status == "Published"

/-- `reviewSchema.statics.calculateBookRating` (src/models/Review.js): an
aggregation `$match`es the target book's Published reviews and `$group`s them
into one bucket carrying `$avg: '$rating'` and `$sum: 1`.  When the result
array is non-empty (`result.length > 0`) the book is updated with the
computed pair via `Book.findByIdAndUpdate` (both paths are declared by
`bookSchema`, so they persist); when no Published review matched, the
aggregation result is empty and NO update is issued.  `bookSchema` also sets
`timestamps: true`, so the same update additionally bumps the book's
`updatedAt`; `BookDoc` does not carry that field and no claim reads it. -/
def calculateBookRating (db : Db) (bookId : Nat) : Db :=
  let result := publishedBookReviews db bookId
  if result.length > 0 then
    let avg : Rat := (result.map (fun r => (r.rating : Rat))).sum / (result.length : Rat)
    let cnt : Nat := result.length
    { db with books := db.books.map fun b =>
        if b.bid == bookId then { b with averageRating := avg, ratingCount := cnt } else b }
  else db

/-- The effective update document `calculateAuthorRating` hands to
`Author.findByIdAndUpdate`: the explicit `{averageRating, ratingCount}`
pair, plus the automatic `$set` of `updatedAt` (to the current instant
`now`) that mongoose appends to every `findOneAndUpdate`-family update
because `authorSchema` sets `timestamps: true`. -/
def authorRatingUpdateDoc (avg : Rat) (cnt : Nat) (now : Nat) : MongoDoc :=
  [("averageRating", MongoValue.num avg), ("ratingCount", MongoValue.num cnt),
   ("updatedAt", MongoValue.num now)]

/-- `reviewSchema.statics.calculateAuthorRating` (src/models/Review.js): the
same aggregation as the book variant, over `{ author: authorId, status:
'Published' }`, followed (when non-empty) by `Author.findByIdAndUpdate` with
`{averageRating, ratingCount}` — applied under mongoose strict mode against
`authorSchema`'s declared paths, together with the automatic `updatedAt`
timestamp mongoose adds for `timestamps: true` (which IS a declared path and
therefore persists). -/
def calculateAuthorRating (db : Db) (authorId : Nat) (now : Nat) : Db :=
  let result := publishedAuthorReviews db authorId
  if result.length > 0 then
    let avg : Rat := (result.map (fun r => (r.rating : Rat))).sum / (result.length : Rat)
    let cnt : Nat := result.length
    { db with authors := db.authors.map fun p =>
        if p.1 == authorId then
          (p.1, applyStrictUpdate authorSchemaPaths p.2 (authorRatingUpdateDoc avg cnt now))
        else p }
  else db

/-- `reviewSchema.post('save')` (src/models/Review.js): after a document
save, recompute the book aggregate when the review has a `book` ref and the
author aggregate when it has an `author` ref.  The body is wrapped in
`try/catch` whose catch only logs; `aggFail` is the environment's oracle for
"the recomputation threw" (target lookup or storage error), in which case the
error is swallowed and no aggregate write lands.  `now` is the environment
instant the author-side update stamps into `updatedAt`. -/
def reviewPostSaveHook (aggFail : Bool) (now : Nat) (doc : ReviewDoc) (db : Db) : Db :=
  if aggFail then db
  else
    let db1 := match doc.book with
      | some b => calculateBookRating db b
      | none => db
    match doc.author with
    | some a => calculateAuthorRating db1 a now
    | none => db1

/-- Find a book by id (`Book.findById`). -/
def bookById (db : Db) (bookId : Nat) : Option BookDoc :=
  db.books.find? fun b => b.bid == bookId

/-! Stable sorting, modelling MongoDB's `.sort({field: dir})` over the small
document sets the claims evaluate. -/

/-- Insert `a` in front of the first element of `l` it is `le`-below. -/
def insertSorted (le : α → α → Bool) (a : α) : List α → List α
  | [] => [a]
  | b :: l => if le a b then a :: b :: l else b :: insertSorted le a l

/-- Stable insertion sort by a boolean comparator. -/
def sortByBool (le : α → α → Bool) : List α → List α
  | [] => []
  | b :: l => insertSorted le b (sortByBool le l)

/-! The review list pipeline (`getAllReviews` in src/controllers/reviews.js). -/

/-- The recognised query parameters of `GET /api/reviews`.  Raw query values
are strings; `page`, `limit` and `rating` go through `parseInt`, modelled as
`Option Int` where `none` stands for an absent parameter or one that parses
to `NaN`. -/
structure ReviewListQuery where
  search : Option String := none
  book : Option Nat := none
  author : Option Nat := none
  reviewer : Option Nat := none
  rating : Option Int := none
  status : Option String := none
  sortBy : Option String := none
  sortOrder : Option String := none
  page : Option Int := none
  limit : Option Int := none
deriving DecidableEq, Repr

/-- `parseInt(v, 10) || d`: an absent / `NaN` / `0` value (all falsy) yields
the default `d`; any other parsed integer is used as given. -/
def jsOrInt (v : Option Int) (d : Int) : Int :=
  match v with
  | none => d
  | some x => if x = 0 then d else x

/-- JavaScript / Joi string trim: strip leading and trailing whitespace
(implemented over the character list so that it evaluates by reduction). -/
def strTrim (s : String) : String :=
  String.mk (((s.toList.dropWhile Char.isWhitespace).reverse.dropWhile Char.isWhitespace).reverse)

/-- Does the list contain `n` as a contiguous subsequence? -/
def containsSeq [BEq α] (n : List α) : List α → Bool
  | [] => n.isEmpty
  | a :: t => n.isPrefixOf (a :: t) || containsSeq n t

/-- Case-insensitive literal substring test, modelling
`new RegExp(needle, 'i').test(hay)` for a needle free of regex
metacharacters (the only form the claims exercise). -/
def strContainsCI (hay needle : String) : Bool :=
  containsSeq (needle.toList.map Char.toLower) (hay.toList.map Char.toLower)

/-- The conjunctive filter object built by `getAllReviews`: free-text search
over title/content, exact matches on book / author / reviewer / rating /
status.  An absent parameter adds no constraint. -/
def reviewQueryMatches (q : ReviewListQuery) (r : ReviewDoc) : Bool :=
  (match q.search with
   | none => true
   | some s => strContainsCI r.title s || strContainsCI r.content s) &&
  (match q.book with | none => true | some b => r.book == some b) &&
  (match q.author with | none => true | some a => r.author == some a) &&
  (match q.reviewer with | none => true | some v => r.reviewer == v) &&
  (match q.rating with | none => true | some v => r.rating == v) &&
  (match q.status with | none => true | some s => r.status == s)

/-- The `sortOptions` object of `getAllReviews` as a (field, direction) pair:
a present `sortBy` is funnelled through the ternary allow-chain
title / rating / helpful with fallback `createdAt`, direction `-1` only for
`sortOrder === 'desc'`; an absent `sortBy` gives the default `{createdAt: -1}`. -/
def reviewsSortOptions (sortBy sortOrder : Option String) : String × Int :=
  match sortBy with
  | some s =>
      let f := if s == "title" then "title"
               else if s == "rating" then "rating"
               else if s == "helpful" then "helpful"
               else "createdAt"
      (f, if sortOrder == some "desc" then -1 else 1)
  | none => ("createdAt", -1)

/-- Ascending key comparison for the four fields `sortOptions` can name on a
review. -/
def reviewKeyLe (field : String) (a b : ReviewDoc) : Bool :=
  if field == "title" then decide (a.title ≤ b.title)
  else if field == "rating" then decide (a.rating ≤ b.rating)
  else if field == "helpful" then decide (a.helpful ≤ b.helpful)
  else decide (a.createdAt ≤ b.createdAt)

/-- Directional comparator for `.sort({field: dir})`. -/
def reviewFieldLe (field : String) (dir : Int) (a b : ReviewDoc) : Bool :=
  if dir == 1 then reviewKeyLe field a b else reviewKeyLe field b a

/-- `Math.ceil(total / limit)` with floating-point division, as exact
rational ceiling (`limit` is never 0 on the paths modelled: `jsOrInt` maps 0
to the default). -/
def jsMathCeil (total : Nat) (limit : Int) : Int :=
  ⌈(total : ℚ) / (limit : ℚ)⌉

/-- The `pagination` metadata object `{current, total, count}`. -/
structure Pagination where
  current : Int
  total : Int
  count : Nat
deriving DecidableEq, Repr

/-- The JSON shape of a review list response. -/
structure ListResponse where
  status : Nat
  success : Bool
  count : Nat
  pagination : Pagination
  data : List ReviewDoc
  message : Option String
deriving DecidableEq, Repr

/-- `getAllReviews` (src/controllers/reviews.js): when the connection is
down, degrade to an empty 200 carrying an explanatory message; otherwise
build the filter, the sort options and the page window
(`page`/`limit` default 1/10 via `parseInt .. || d`,
`startIndex = (page-1)*limit`), count the matches, fetch the sorted page
(`.sort(sortOptions).limit(limit).skip(startIndex)`; Mongo applies skip
before limit) and answer 200 with items, count and pagination metadata.
The `.populate` decorations replace ref ids by summaries inside each item
and neither add nor remove items; they are not modelled. -/
def getAllReviews (connected : Bool) (db : Db) (q : ReviewListQuery) : ListResponse :=
  if !connected then
    { status := 200, success := true, count := 0,
      pagination := { current := 1, total := 0, count := 0 }, data := [],
      message := some "Database not connected - returning empty results" }
  else
    let matched := db.reviews.filter (reviewQueryMatches q)
    let so := reviewsSortOptions q.sortBy q.sortOrder
    let page := jsOrInt q.page 1
    let limit := jsOrInt q.limit 10
    let startIndex := (page - 1) * limit
    let items := ((sortByBool (reviewFieldLe so.1 so.2) matched).drop startIndex.toNat).take limit.toNat
    { status := 200, success := true, count := items.length,
      pagination := { current := page, total := jsMathCeil matched.length limit,
                      count := items.length },
      data := items, message := none }

/-- The JSON shape of the per-book / per-author review listing response. -/
structure SubListResponse where
  status : Nat
  success : Bool
  count : Nat
  data : List ReviewDoc
  message : Option String
deriving DecidableEq, Repr

/-- `getReviewsByBook` (src/controllers/reviews.js): degrade to an empty 200
when disconnected; otherwise `Review.find({book: bookId, status:
'Published'}).sort({createdAt: -1})` and answer 200 with the list and its
length. -/
def getReviewsByBook (connected : Bool) (db : Db) (bookId : Nat) : SubListResponse :=
  if !connected then
    { status := 200, success := true, count := 0, data := [],
      message := some "Database not connected - returning empty results" }
  else
    let reviews := sortByBool (fun a b => decide (b.createdAt ≤ a.createdAt))
      (db.reviews.filter fun r => r.book == some bookId && r.status == "Published")
    { status := 200, success := true, count := reviews.length, data := reviews,
      message := none }

/-! Validation (`reviewValidation` in the Joi validators module) and the
review mutation handlers. -/

/-- A `POST /api/reviews` request body, as the fields the Joi schema and the
mongoose schema inspect.  `none` is an absent key.  `reviewer` is carried
because `Review.create(req.body)` requires it, although the Joi schema does
not declare it. -/
structure ReviewCreateBody where
  title : Option String := none
  content : Option String := none
  rating : Option Int := none
  book : Option Nat := none
  author : Option Nat := none
  status : Option String := none
  reviewer : Option Nat := none
deriving DecidableEq, Repr

/-- The review moderation status enumeration. -/
def reviewStatusEnum : List String := ["Published", "Pending", "Hidden", "Flagged"]

/-- `reviewValidation.create`: title required (trimmed, non-empty, ≤ 200),
content required (non-empty, ≤ 5000), rating required integer 1..5, `book`
and `author` optional ObjectId references (the 24-hex-char pattern test is
part of id well-formedness, opaque here), optional status from the
enumeration, combined with `.or('book', 'author')` — at least one of the two
target keys must be present.  Joi objects reject unknown keys by default, so
a body carrying `reviewer` fails validation. -/
def reviewCreateBodyValid (b : ReviewCreateBody) : Bool :=
  (match b.title with | none => false | some t => strTrim t ≠ "" && (strTrim t).length ≤ 200) &&
  (match b.content with | none => false | some c => c ≠ "" && c.length ≤ 5000) &&
  (match b.rating with | none => false | some v => 1 ≤ v && v ≤ 5) &&
  (match b.status with | none => true | some s => reviewStatusEnum.contains s) &&
  (b.book.isSome || b.author.isSome) &&
  b.reviewer.isNone

/-- Mongoose schema validation run by `Review.create`: required title
(trimmed non-empty, maxlength 200), required content (non-empty, maxlength
5000), required rating with `min: 1, max: 5`, required reviewer, status from
the enumeration (defaulted when absent). -/
def reviewSchemaValid (b : ReviewCreateBody) : Bool :=
  (match b.title with | none => false | some t => strTrim t ≠ "" && (strTrim t).length ≤ 200) &&
  (match b.content with | none => false | some c => c ≠ "" && c.length ≤ 5000) &&
  (match b.rating with | none => false | some v => 1 ≤ v && v ≤ 5) &&
  (match b.status with | none => true | some s => reviewStatusEnum.contains s) &&
  b.reviewer.isSome

/-- Does the store already hold a review by the same reviewer for the same
book target or the same author target?  (The two partial unique indexes on
`{reviewer, book}` and `{reviewer, author}`; a clash surfaces as Mongo error
code 11000.) -/
def duplicateReviewExists (db : Db) (b : ReviewCreateBody) : Bool :=
  db.reviews.any fun r =>
    r.reviewer == b.reviewer.getD 0 &&
    ((b.book.isSome && r.book == b.book) || (b.author.isSome && r.author == b.author))

/-- The outcome classes of `Review.create` the controller distinguishes. -/
inductive CreateErr where
  | validationFail
  | dupKey
deriving DecidableEq, Repr

/-- `Review.create(req.body)` without its post-save hook: schema validation,
then the unique-index check at insert, then the stored document with the
schema defaults (`helpful: 0`, `status: 'Published'`, `createdAt: Date.now`)
under the fresh id `newId` and instant `now`. -/
def mongooseCreateReview (db : Db) (b : ReviewCreateBody) (newId now : Nat) :
    Except CreateErr ReviewDoc :=
  if !reviewSchemaValid b then .error .validationFail
  else if duplicateReviewExists db b then .error .dupKey
  else .ok
    { rid := newId
      title := strTrim (b.title.getD "")
      content := b.content.getD ""
      rating := b.rating.getD 0
      book := b.book
      author := b.author
      reviewer := b.reviewer.getD 0
      helpful := 0
      status := b.status.getD "Published"
      createdAt := now }

/-- The JSON shape of a review mutation response. -/
structure MutationResponse where
  status : Nat
  success : Bool
  data : Option ReviewDoc
  error : Option String
  message : Option String
deriving DecidableEq, Repr

/-- `createReview` (src/controllers/reviews.js): a 503 when the connection is
down; otherwise `Review.create(req.body)` — error code 11000 maps to a 400
duplicate message, `ValidationError` to a 400 — and on success the document
is appended, its post-save hook runs (recomputing aggregates, any failure
swallowed by the hook's own `try/catch`), and the handler answers 201 with
the created document. -/
def createReview (connected aggFail : Bool) (db : Db) (b : ReviewCreateBody)
    (newId now : Nat) : MutationResponse × Db :=
  if !connected then
    ({ status := 503, success := false, data := none,
       error := some "Database not connected - cannot create review",
       message := none }, db)
  else
    match mongooseCreateReview db b newId now with
    | .error .dupKey =>
        ({ status := 400, success := false, data := none,
           error := some "You have already reviewed this item", message := none }, db)
    | .error .validationFail =>
        ({ status := 400, success := false, data := none,
           error := some "Validation failed", message := none }, db)
    | .ok doc =>
        let db1 : Db := { db with reviews := db.reviews ++ [doc] }
        let db2 := reviewPostSaveHook aggFail now doc db1
        ({ status := 201, success := true, data := some doc, error := none,
           message := none }, db2)

/-- A `PUT /api/reviews/:id` body: every field optional (`$set` semantics —
an absent key leaves the stored field unchanged). -/
structure ReviewUpdateBody where
  title : Option String := none
  content : Option String := none
  rating : Option Int := none
  book : Option Nat := none
  author : Option Nat := none
  status : Option String := none
deriving DecidableEq, Repr

/-- The update validators `findByIdAndUpdate(.., {runValidators: true})`
runs on the paths present in the update document. -/
def reviewUpdateValid (u : ReviewUpdateBody) : Bool :=
  (match u.title with | none => true | some t => strTrim t ≠ "" && (strTrim t).length ≤ 200) &&
  (match u.content with | none => true | some c => c ≠ "" && c.length ≤ 5000) &&
  (match u.rating with | none => true | some v => 1 ≤ v && v ≤ 5) &&
  (match u.status with | none => true | some s => reviewStatusEnum.contains s)

/-- Apply the `$set` of the provided body fields to a stored review. -/
def applyReviewUpdate (r : ReviewDoc) (u : ReviewUpdateBody) : ReviewDoc :=
  { r with
    title := (u.title.map strTrim).getD r.title
    content := u.content.getD r.content
    rating := u.rating.getD r.rating
    book := match u.book with | some b => some b | none => r.book
    author := match u.author with | some a => some a | none => r.author
    status := u.status.getD r.status }

/-- `updateReview` (src/controllers/reviews.js): a 503 when disconnected;
404 when `findById` misses; otherwise
`Review.findByIdAndUpdate(id, body, {new: true, runValidators: true})` and a
200 with the updated document.  `findByIdAndUpdate` is a query update: no
`save` middleware fires, so NO aggregate recomputation is triggered — the
`aggFail` environment oracle is threaded for uniformity and is unused. -/
def updateReview (connected aggFail : Bool) (db : Db) (rid : Nat)
    (u : ReviewUpdateBody) : MutationResponse × Db :=
  if !connected then
    ({ status := 503, success := false, data := none,
       error := some "Database not connected - cannot update review",
       message := none }, db)
  else
    match db.reviews.find? (fun r => r.rid == rid) with
    | none =>
        ({ status := 404, success := false, data := none,
           error := some "Review not found", message := none }, db)
    | some r =>
        if !reviewUpdateValid u then
          ({ status := 400, success := false, data := none,
             error := some "Validation failed", message := none }, db)
        else
          let r2 := applyReviewUpdate r u
          ({ status := 200, success := true, data := some r2, error := none,
             message := none },
           { db with reviews := db.reviews.map fun x => if x.rid == rid then r2 else x })

/-- `deleteReview` (src/controllers/reviews.js): a 503 when disconnected;
404 when `findById` misses; otherwise `Review.findByIdAndDelete(id)` and a
200 success message.  `findByIdAndDelete` fires the `findOneAndDelete` query
middleware, for which none is registered — the schema's `post('remove')`
document middleware does NOT run, so NO aggregate recomputation is
triggered; `aggFail` is threaded for uniformity and is unused. -/
def deleteReview (connected aggFail : Bool) (db : Db) (rid : Nat) :
    MutationResponse × Db :=
  if !connected then
    ({ status := 503, success := false, data := none,
       error := some "Database not connected - cannot delete review",
       message := none }, db)
  else
    match db.reviews.find? (fun r => r.rid == rid) with
    | none =>
        ({ status := 404, success := false, data := none,
           error := some "Review not found", message := none }, db)
    | some _ =>
        ({ status := 200, success := true, data := none, error := none,
           message := some "Review deleted successfully" },
         { db with reviews := db.reviews.filter fun r => !(r.rid == rid) })

/-! Sort-option construction of the other three list controllers, and the
per-resource `sortBy` allow-lists declared in `queryValidation`. -/

/-- `sortBy` allow-list of `queryValidation.books`. -/
def booksSortByAllowList : List String :=
  ["title", "publicationDate", "averageRating", "createdAt"]

/-- `sortBy` allow-list of `queryValidation.reviews`. -/
def reviewsSortByAllowList : List String := ["title", "rating", "helpful", "createdAt"]

/-- `sortBy` allow-list of `queryValidation.authors`. -/
def authorsSortByAllowList : List String := ["firstName", "lastName", "birthDate", "createdAt"]

/-- `sortBy` allow-list of `queryValidation.publishers`. -/
def publishersSortByAllowList : List String := ["name", "foundedYear", "createdAt"]

/-- The `sortOptions` object of `getAllBooks` (the books controller):
`sortOptions[req.query.sortBy] = sortOrder === 'desc' ? -1 : 1` — the raw
`sortBy` string is used as the field, with no allow-list; absent `sortBy`
defaults to `{createdAt: -1}`. -/
def booksSortOptions (sortBy sortOrder : Option String) : String × Int :=
  match sortBy with
  | some s => (s, if sortOrder == some "desc" then -1 else 1)
  | none => ("createdAt", -1)

/-- The `sortOptions` object of `getAllPublishers`: the raw `sortBy` string
is used as the field, with no allow-list; absent `sortBy` defaults to
`{name: 1}`. -/
def publishersSortOptions (sortBy sortOrder : Option String) : String × Int :=
  match sortBy with
  | some s => (s, if sortOrder == some "desc" then -1 else 1)
  | none => ("name", 1)

/-- The `sortOptions` object of `getAllAuthors`: the ternary allow-chain
firstName / lastName / birthDate with fallback `createdAt`; absent `sortBy`
defaults to `{createdAt: -1}`. -/
def authorsSortOptions (sortBy sortOrder : Option String) : String × Int :=
  match sortBy with
  | some s =>
      let f := if s == "firstName" then "firstName"
               else if s == "lastName" then "lastName"
               else if s == "birthDate" then "birthDate"
               else "createdAt"
      (f, if sortOrder == some "desc" then -1 else 1)
  | none => ("createdAt", -1)

/-! The connection check every controller runs first
(`mongoose.connection.readyState !== 1`). -/

/-- The sixteen CRUD entry points whose connection-check preamble the
error-handling design describes. -/
inductive ApiOp where
  | getAllBooks | getAllAuthors | getAllPublishers | getAllReviewsOp
  | createBook | updateBook | deleteBook
  | createAuthor | updateAuthor | deleteAuthor
  | createPublisher | updatePublisher | deletePublisher
  | createReviewOp | updateReviewOp | deleteReviewOp
deriving DecidableEq, Repr

/-- The four collection list operations. -/
def ApiOp.isListOp : ApiOp → Bool
  | .getAllBooks | .getAllAuthors | .getAllPublishers | .getAllReviewsOp => true
  | _ => false

/-- The twelve mutation operations. -/
def ApiOp.isMutationOp : ApiOp → Bool
  | .createBook | .updateBook | .deleteBook
  | .createAuthor | .updateAuthor | .deleteAuthor
  | .createPublisher | .updatePublisher | .deletePublisher
  | .createReviewOp | .updateReviewOp | .deleteReviewOp => true
  | _ => false

/-- The fields of the early-return JSON each controller sends when
`mongoose.connection.readyState !== 1`. -/
structure GateResponse where
  status : Nat
  success : Bool
  count : Option Nat
  dataEmptyList : Bool
  message : Option String
  error : Option String
deriving DecidableEq, Repr

/-- The connection-check early return of each controller, transcribed from
src/controllers/{books,authors,publishers,reviews}.js: every list handler
degrades to `200 {success: true, count: 0, data: [], message: ...}` and
every mutation handler fails with `503 {success: false, error: ...}`. -/
def connGateResponse : ApiOp → GateResponse
  | .getAllBooks | .getAllAuthors | .getAllPublishers | .getAllReviewsOp =>
      { status := 200, success := true, count := some 0, dataEmptyList := true,
        message := some "Database not connected - returning empty results",
        error := none }
  | .createBook =>
      { status := 503, success := false, count := none, dataEmptyList := false,
        message := none, error := some "Database not connected - cannot create book" }
  | .updateBook =>
      { status := 503, success := false, count := none, dataEmptyList := false,
        message := none, error := some "Database not connected - cannot update book" }
  | .deleteBook =>
      { status := 503, success := false, count := none, dataEmptyList := false,
        message := none, error := some "Database not connected - cannot delete book" }
  | .createAuthor =>
      { status := 503, success := false, count := none, dataEmptyList := false,
        message := none, error := some "Database not connected - cannot create author" }
  | .updateAuthor =>
      { status := 503, success := false, count := none, dataEmptyList := false,
        message := none, error := some "Database not connected - cannot update author" }
  | .deleteAuthor =>
      { status := 503, success := false, count := none, dataEmptyList := false,
        message := none, error := some "Database not connected - cannot delete author" }
  | .createPublisher =>
      { status := 503, success := false, count := none, dataEmptyList := false,
        message := none, error := some "Database not connected - cannot create publisher" }
  | .updatePublisher =>
      { status := 503, success := false, count := none, dataEmptyList := false,
        message := none, error := some "Database not connected - cannot update publisher" }
  | .deletePublisher =>
      { status := 503, success := false, count := none, dataEmptyList := false,
        message := none, error := some "Database not connected - cannot delete publisher" }
  | .createReviewOp =>
      { status := 503, success := false, count := none, dataEmptyList := false,
        message := none, error := some "Database not connected - cannot create review" }
  | .updateReviewOp =>
      { status := 503, success := false, count := none, dataEmptyList := false,
        message := none, error := some "Database not connected - cannot update review" }
  | .deleteReviewOp =>
      { status := 503, success := false, count := none, dataEmptyList := false,
        message := none, error := some "Database not connected - cannot delete review" }

/-! Concrete fixtures used to evaluate the operations. -/

/-- A book whose stored aggregate is `averageRating 4, ratingCount 1`. -/
def bookB : BookDoc := { bid := 1, title := "B", averageRating := 4, ratingCount := 1 }

/-- The single Published review (rating 4) of `bookB`. -/
def revPub : ReviewDoc :=
  { rid := 10, title := "T", content := "C", rating := 4, book := some 1,
    author := none, reviewer := 7, helpful := 0, status := "Published",
    createdAt := 100 }

/-- A consistent store: `bookB`'s aggregate matches its one Published review. -/
def dbC1 : Db := { books := [bookB], authors := [], reviews := [revPub] }

/-- A Hidden review of `bookB` (it does not count towards the aggregate). -/
def revHidden : ReviewDoc :=
  { rid := 11, title := "T", content := "C", rating := 4, book := some 1,
    author := none, reviewer := 8, helpful := 0, status := "Hidden",
    createdAt := 101 }

/-- A store where `bookB` still carries `averageRating 4, ratingCount 1` but
its only remaining review is Hidden — the state reached right after the last
Published review was hidden. -/
def dbStale : Db := { books := [bookB], authors := [], reviews := [revHidden] }

/-- A create body that names both a book target and an author target. -/
def bothTargetsBody : ReviewCreateBody :=
  { title := some "Great", content := some "Loved it", rating := some 5,
    book := some 1, author := some 2 }

/-- `bothTargetsBody` as the model layer receives it (reviewer supplied, the
way every stored review in the repository's own tests is created). -/
def bothTargetsStored : ReviewCreateBody := { bothTargetsBody with reviewer := some 7 }

/-- The empty store. -/
def dbEmpty : Db := { books := [], authors := [], reviews := [] }

/-- A bulk review fixture: id `i`, Published, rating 3, decreasing creation
times. -/
def mkBulkReview (i : Nat) : ReviewDoc :=
  { rid := i, title := "T", content := "C", rating := 3, book := some 1,
    author := none, reviewer := i, helpful := 0, status := "Published",
    createdAt := 1000 - i }

/-- A store holding 101 Published reviews. -/
def dbBulk : Db := { books := [], authors := [], reviews := (List.range 101).map mkBulkReview }

/-- A list request carrying `limit=500` and nothing else. -/
def qLimit500 : ReviewListQuery := { limit := some 500 }

/-- A list request for page 5 at limit 10, beyond the last page of every
store with at most 40 matches. -/
def qPage5 : ReviewListQuery := { page := some 5, limit := some 10 }

/-- A stored Author document (schemaless view): a first name and an
`updatedAt` stamp of instant 50. -/
def authorJohn : MongoDoc :=
  [("firstName", MongoValue.str "John"), ("updatedAt", MongoValue.num 50)]

/-- A Published review targeting author 5. -/
def revAuthorPub : ReviewDoc :=
  { rid := 12, title := "T", content := "C", rating := 4, book := none,
    author := some 5, reviewer := 9, helpful := 0, status := "Published",
    createdAt := 120 }

/-- A store holding author 5 (`authorJohn`) and their one Published review. -/
def dbAuthorRev : Db :=
  { books := [], authors := [(5, authorJohn)], reviews := [revAuthorPub] }

/-! Correctness lemmas for the sorting infrastructure. -/

theorem length_insertSorted (le : α → α → Bool) (a : α) :
    ∀ l : List α, (insertSorted le a l).length = l.length + 1
  | [] => rfl
  | b :: t => by
    simp only [insertSorted]
    split
    · rfl
    · simp [length_insertSorted le a t]

theorem length_sortByBool (le : α → α → Bool) :
    ∀ l : List α, (sortByBool le l).length = l.length
  | [] => rfl
  | b :: t => by
    simp only [sortByBool, length_insertSorted, length_sortByBool le t, List.length_cons]

theorem mem_insertSorted (le : α → α → Bool) (a x : α) :
    ∀ l : List α, x ∈ insertSorted le a l ↔ x = a ∨ x ∈ l
  | [] => by simp [insertSorted]
  | b :: t => by
    simp only [insertSorted]
    split
    · simp [List.mem_cons]
    · simp only [List.mem_cons, mem_insertSorted le a x t]
      tauto

theorem mem_sortByBool (le : α → α → Bool) (x : α) :
    ∀ l : List α, x ∈ sortByBool le l ↔ x ∈ l
  | [] => Iff.rfl
  | b :: t => by
    simp only [sortByBool, mem_insertSorted, mem_sortByBool le x t, List.mem_cons]

theorem pairwise_insertSorted (le : α → α → Bool)
    (htot : ∀ x y, le x y = true ∨ le y x = true)
    (htrans : ∀ x y z, le x y = true → le y z = true → le x z = true)
    (a : α) :
    ∀ l : List α, l.Pairwise (fun x y => le x y = true) →
      (insertSorted le a l).Pairwise (fun x y => le x y = true)
  | [], _ => by simp [insertSorted]
  | b :: t, h => by
    rcases List.pairwise_cons.mp h with ⟨hb, ht⟩
    simp only [insertSorted]
    split
    case isTrue hab =>
      refine List.pairwise_cons.mpr ⟨?_, h⟩
      intro x hx
      rcases List.mem_cons.mp hx with rfl | hx
      · exact hab
      · exact htrans a b x hab (hb x hx)
    case isFalse hab =>
      refine List.pairwise_cons.mpr ⟨?_, pairwise_insertSorted le htot htrans a t ht⟩
      intro x hx
      rcases (mem_insertSorted le a x t).mp hx with rfl | hx
      · rcases htot x b with hxb | hbx
        · exact absurd hxb hab
        · exact hbx
      · exact hb x hx

theorem pairwise_sortByBool (le : α → α → Bool)
    (htot : ∀ x y, le x y = true ∨ le y x = true)
    (htrans : ∀ x y z, le x y = true → le y z = true → le x z = true) :
    ∀ l : List α, (sortByBool le l).Pairwise (fun x y => le x y = true)
  | [] => List.Pairwise.nil
  | b :: t => pairwise_insertSorted le htot htrans b _ (pairwise_sortByBool le htot htrans t)

/-! The strict-mode update of `calculateAuthorRating` reduces to the
automatic timestamp write: both rating paths are stripped, `updatedAt`
survives. -/

theorem applyStrict_authorRating_eq_setPath (d : MongoDoc) (avg : Rat)
    (cnt now : Nat) :
    applyStrictUpdate authorSchemaPaths d (authorRatingUpdateDoc avg cnt now) =
      setPath d "updatedAt" (MongoValue.num now) := by
  have h1 : ("averageRating" : String) ∉ authorSchemaPaths := by decide
  have h2 : ("ratingCount" : String) ∉ authorSchemaPaths := by decide
  have h3 : ("updatedAt" : String) ∈ authorSchemaPaths := by decide
  show List.foldl _ d _ = _
  rw [authorRatingUpdateDoc, List.foldl_cons, List.foldl_cons, List.foldl_cons,
    List.foldl_nil]
  rw [if_neg h1, if_neg h2, if_pos h3]

/-! Claim theorems. -/

/-- C9 counterexample: author 5 holds `{firstName: "John", updatedAt: 50}`
and has one Published review; running the author-side recomputation at
instant 200 does change the stored Author document — its `updatedAt` becomes
200 (the automatic `$set` for `timestamps: true` survives strict stripping
because `updatedAt` is a declared path), so the store is NOT unchanged.  No
rating field appears: the resulting document still carries only `firstName`
and `updatedAt`. -/
theorem calculateAuthorRating_bumps_updatedAt :
    calculateAuthorRating dbAuthorRev 5 200 ≠ dbAuthorRev ∧
    (calculateAuthorRating dbAuthorRev 5 200).authors =
      [(5, [("firstName", MongoValue.str "John"), ("updatedAt", MongoValue.num 200)])] ∧
    dbAuthorRev.authors =
      [(5, [("firstName", MongoValue.str "John"), ("updatedAt", MongoValue.num 50)])] := by
  refine ⟨by decide, by decide, by decide⟩

/-- C9 as amended: the author-side recomputation never persists
`averageRating` or `ratingCount` on any Author — `authorSchema` declares
neither path, so mongoose strict mode drops both — but it is not a no-op:
when the target has at least one Published review, the issued
`Author.findByIdAndUpdate` still applies the automatic `$set` of `updatedAt`
(`timestamps: true`), so the matching author's `updatedAt` is bumped to the
current instant and nothing else changes anywhere in the store; when no
Published review exists, no update is issued and the store is fully
unchanged. -/
theorem calculateAuthorRating_effect :
    ∀ (db : Db) (authorId now : Nat),
      authorSchemaPaths.contains "averageRating" = false ∧
      authorSchemaPaths.contains "ratingCount" = false ∧
      (publishedAuthorReviews db authorId = [] →
        calculateAuthorRating db authorId now = db) ∧
      (publishedAuthorReviews db authorId ≠ [] →
        calculateAuthorRating db authorId now =
          { db with authors := db.authors.map fun p =>
              if p.1 == authorId then
                (p.1, setPath p.2 "updatedAt" (MongoValue.num now))
              else p }) := by
  intro db authorId now
  refine ⟨by decide, by decide, ?_, ?_⟩
  · intro h
    simp only [calculateAuthorRating]
    rw [h]
    rfl
  · intro h
    have hlen : (publishedAuthorReviews db authorId).length > 0 :=
      List.length_pos.mpr h
    simp only [calculateAuthorRating]
    rw [if_pos hlen]
    have hfun : (fun p : Nat × MongoDoc =>
        if p.1 == authorId then
          (p.1, applyStrictUpdate authorSchemaPaths p.2 (authorRatingUpdateDoc
            (((publishedAuthorReviews db authorId).map fun r => (r.rating : Rat)).sum /
              ((publishedAuthorReviews db authorId).length : Rat))
            (publishedAuthorReviews db authorId).length now))
        else p) =
        (fun p : Nat × MongoDoc =>
          if p.1 == authorId then
            (p.1, setPath p.2 "updatedAt" (MongoValue.num now))
          else p) := by
      funext p
      by_cases hc : p.1 == authorId
      · rw [if_pos hc, if_pos hc, applyStrict_authorRating_eq_setPath]
      · rw [if_neg hc, if_neg hc]
    rw [hfun]

/-- C9 amended witness: the exact effect evaluated on `dbAuthorRev`. -/
theorem calculateAuthorRating_effect_witness :
    publishedAuthorReviews dbAuthorRev 5 ≠ [] ∧
    calculateAuthorRating dbAuthorRev 5 200 =
      { dbAuthorRev with authors := dbAuthorRev.authors.map fun p =>
          if p.1 == 5 then (p.1, setPath p.2 "updatedAt" (MongoValue.num 200))
          else p } :=
  ⟨by decide, (calculateAuthorRating_effect dbAuthorRev 5 200).2.2.2 (by decide)⟩

/-- C2 counterexample: in the store `dbStale` — book 1 holds
`averageRating 4, ratingCount 1` and its only review is Hidden, so it has
no Published review — running the recomputation writes nothing: the store
is returned unchanged, and book 1 keeps the stale nonzero pair, instead of
the `{averageRating: 0, ratingCount: 0}` the claim requires. -/
theorem calculateBookRating_keeps_stale_value :
    publishedBookReviews dbStale 1 = [] ∧
    calculateBookRating dbStale 1 = dbStale ∧
    bookById dbStale 1 = some bookB ∧
    bookB.averageRating = 4 ∧ bookB.ratingCount = 1 ∧
    ¬((4 : Rat) = 0 ∧ (1 : Nat) = 0) := by
  refine ⟨by decide, by decide, by decide, rfl, rfl, by decide⟩

/-- C2 as amended: when recomputation runs for a target with no Published
reviews, the aggregation result is empty, the `result.length > 0` guard
fails, and NO update is issued at all — the target keeps whatever
`averageRating`/`ratingCount` it had (which may be a stale nonzero pair). -/
theorem calculateRating_no_published_no_write :
    ∀ (db : Db) (targetId : Nat),
      (publishedBookReviews db targetId = [] → calculateBookRating db targetId = db) ∧
      (∀ now : Nat, publishedAuthorReviews db targetId = [] →
        calculateAuthorRating db targetId now = db) := by
  intro db targetId
  constructor
  · intro h
    unfold calculateBookRating
    rw [h]
    rfl
  · intro now h
    unfold calculateAuthorRating
    rw [h]
    rfl

/-- C2 amended witness: the no-write behaviour evaluated on `dbStale`. -/
theorem calculateRating_no_published_no_write_witness :
    publishedBookReviews dbStale 1 = [] ∧ calculateBookRating dbStale 1 = dbStale :=
  ⟨by decide, (calculateRating_no_published_no_write dbStale 1).1 (by decide)⟩

/-- C1 (evaluating the code at the failing input): store `dbC1` satisfies
the invariant — book 1 has `averageRating 4, ratingCount 1` matching its one
Published review of rating 4.  Deleting that review through the delete
handler succeeds with a 200, yet no recomputation runs
(`findByIdAndDelete` fires no `remove` middleware), so book 1 still carries
`averageRating 4, ratingCount 1` although its set of Published reviews is
now empty — the aggregate is NOT the mean/count of the Published reviews. -/
theorem deleteReview_leaves_stale_aggregate :
    (deleteReview true false dbC1 10).1.status = 200 ∧
    (deleteReview true false dbC1 10).1.success = true ∧
    publishedBookReviews (deleteReview true false dbC1 10).2 1 = [] ∧
    bookById (deleteReview true false dbC1 10).2 1 = some bookB ∧
    bookB.averageRating = 4 ∧ bookB.ratingCount = 1 := by
  refine ⟨by decide, by decide, by decide, by decide, rfl, rfl⟩

/-- C3 counterexample: a create body naming BOTH a book and an author target
passes `reviewValidation.create` (its `.or('book', 'author')` requires at
least one key, not at most one), and the review model stores both references
(neither schema-level exclusion nor any controller check exists): the same
body with a reviewer is accepted by `Review.create` with both refs kept. -/
theorem reviewCreate_accepts_both_targets :
    reviewCreateBodyValid bothTargetsBody = true ∧
    bothTargetsBody.book.isSome = true ∧
    bothTargetsBody.author.isSome = true ∧
    mongooseCreateReview dbEmpty bothTargetsStored 20 200 =
      Except.ok
        { rid := 20, title := "Great", content := "Loved it", rating := 5,
          book := some 1, author := some 2, reviewer := 7, helpful := 0,
          status := "Published", createdAt := 200 } := by
  refine ⟨by decide, by decide, by decide, rfl⟩

/-- C3 as amended: every body accepted by the create validation has AT LEAST
one of the two target references set (never neither); the validation does
not prevent both being set simultaneously. -/
theorem reviewCreateValid_has_some_target :
    ∀ b : ReviewCreateBody, reviewCreateBodyValid b = true →
      b.book.isSome = true ∨ b.author.isSome = true := by
  intro b h
  simp only [reviewCreateBodyValid, Bool.and_eq_true, Bool.or_eq_true] at h
  exact h.1.2

/-- C3 amended witness: the at-least-one guarantee at `bothTargetsBody`. -/
theorem reviewCreateValid_has_some_target_witness :
    reviewCreateBodyValid bothTargetsBody = true ∧
    (bothTargetsBody.book.isSome = true ∨ bothTargetsBody.author.isSome = true) :=
  ⟨by decide, reviewCreateValid_has_some_target bothTargetsBody (by decide)⟩

/-- C4: the response of every review mutation handler is independent of
whether the triggered aggregate recomputation fails.  For `createReview` the
`post('save')` hook wraps the recomputation in `try/catch` and only logs,
so the 201 (or error) response is the same under a failing and a succeeding
recomputation; `updateReview` and `deleteReview` trigger no recomputation
at all, so their responses cannot depend on the failure oracle either. -/
theorem aggregation_failure_never_changes_response :
    ∀ (connected fail1 fail2 : Bool) (db : Db) (b : ReviewCreateBody)
      (newId now rid : Nat) (u : ReviewUpdateBody),
      (createReview connected fail1 db b newId now).1 =
        (createReview connected fail2 db b newId now).1 ∧
      (updateReview connected fail1 db rid u).1 =
        (updateReview connected fail2 db rid u).1 ∧
      (deleteReview connected fail1 db rid).1 =
        (deleteReview connected fail2 db rid).1 := by
  intro connected fail1 fail2 db b newId now rid u
  refine ⟨?_, rfl, rfl⟩
  cases connected with
  | false => rfl
  | true =>
    simp only [createReview]
    cases mongooseCreateReview db b newId now with
    | error e => cases e <;> rfl
    | ok doc => rfl

/-- C5 counterexample: the books list controller builds
`sortOptions[req.query.sortBy] = ...` from the raw request value, so an
unknown `sortBy` ("zzz" is in no allow-list) IS used as the sort field;
nothing rejects it earlier, since the `queryValidation` schemas are attached
to no route. -/
theorem booksSortOptions_uses_unknown_field :
    booksSortOptions (some "zzz") none = ("zzz", 1) ∧
    booksSortByAllowList.contains "zzz" = false ∧
    publishersSortOptions (some "zzz") none = ("zzz", 1) ∧
    publishersSortByAllowList.contains "zzz" = false := by
  refine ⟨by decide, by decide, by decide, by decide⟩

/-- C5 as amended: only the reviews and authors list controllers guard
`sortBy` with a ternary allow-chain — for them a value outside the resource
allow-list is never used as the sort field, the query falling back to the
`createdAt` field (with direction taken from `sortOrder`, ascending when
absent, rather than the default newest-first) — while the books and
publishers controllers use the raw `sortBy` value directly as the sort
field; no case raises an error. -/
theorem sortBy_fallback_per_resource :
    (∀ (s : String) (ord : Option String), s ∉ reviewsSortByAllowList →
        (reviewsSortOptions (some s) ord).1 = "createdAt") ∧
    (∀ (s : String) (ord : Option String), s ∉ authorsSortByAllowList →
        (authorsSortOptions (some s) ord).1 = "createdAt") ∧
    (∀ (s : String) (ord : Option String), (booksSortOptions (some s) ord).1 = s) ∧
    (∀ (s : String) (ord : Option String), (publishersSortOptions (some s) ord).1 = s) := by
  refine ⟨?_, ?_, fun s ord => rfl, fun s ord => rfl⟩
  · intro s ord h
    simp only [reviewsSortByAllowList, List.mem_cons, List.mem_singleton, not_or] at h
    obtain ⟨h1, h2, h3, -⟩ := h
    simp only [reviewsSortOptions]
    rw [if_neg (by simpa using h1), if_neg (by simpa using h2), if_neg (by simpa using h3)]
  · intro s ord h
    simp only [authorsSortByAllowList, List.mem_cons, List.mem_singleton, not_or] at h
    obtain ⟨h1, h2, h3, -⟩ := h
    simp only [authorsSortOptions]
    rw [if_neg (by simpa using h1), if_neg (by simpa using h2), if_neg (by simpa using h3)]

/-- C5 amended witness: the fallback and raw-use behaviour at the concrete
unknown value "zzz". -/
theorem sortBy_fallback_per_resource_witness :
    ("zzz" ∉ reviewsSortByAllowList ∧ (reviewsSortOptions (some "zzz") none).1 = "createdAt") ∧
    ("zzz" ∉ authorsSortByAllowList ∧ (authorsSortOptions (some "zzz") none).1 = "createdAt") ∧
    (booksSortOptions (some "zzz") none).1 = "zzz" ∧
    (publishersSortOptions (some "zzz") none).1 = "zzz" :=
  ⟨⟨by decide, sortBy_fallback_per_resource.1 "zzz" none (by decide)⟩,
   ⟨by decide, sortBy_fallback_per_resource.2.1 "zzz" none (by decide)⟩,
   sortBy_fallback_per_resource.2.2.1 "zzz" none,
   sortBy_fallback_per_resource.2.2.2 "zzz" none⟩

/-- C6: a review list request whose page lies beyond the last page of the
filtered result set answers 200 with an empty item list, count 0,
`pagination.current` equal to the requested page and `pagination.total`
equal to `ceil(totalMatches / limit)` — no error is raised. -/
theorem getAllReviews_page_beyond_last :
    ∀ (db : Db) (q : ReviewListQuery),
      1 ≤ jsOrInt q.page 1 → 1 ≤ jsOrInt q.limit 10 →
      (db.reviews.filter (reviewQueryMatches q)).length ≤
        ((jsOrInt q.page 1 - 1) * jsOrInt q.limit 10).toNat →
      (getAllReviews true db q).data = [] ∧
      (getAllReviews true db q).count = 0 ∧
      (getAllReviews true db q).pagination.current = jsOrInt q.page 1 ∧
      (getAllReviews true db q).pagination.total =
        jsMathCeil (db.reviews.filter (reviewQueryMatches q)).length (jsOrInt q.limit 10) ∧
      (getAllReviews true db q).status = 200 := by
  intro db q hp hl h
  have hlen : (sortByBool
      (reviewFieldLe (reviewsSortOptions q.sortBy q.sortOrder).1
        (reviewsSortOptions q.sortBy q.sortOrder).2)
      (db.reviews.filter (reviewQueryMatches q))).length ≤
      ((jsOrInt q.page 1 - 1) * jsOrInt q.limit 10).toNat := by
    rw [length_sortByBool]; exact h
  have hdrop := List.drop_eq_nil_of_le hlen
  refine ⟨?_, ?_, rfl, rfl, rfl⟩
  · show ((sortByBool
        (reviewFieldLe (reviewsSortOptions q.sortBy q.sortOrder).1
          (reviewsSortOptions q.sortBy q.sortOrder).2)
        (db.reviews.filter (reviewQueryMatches q))).drop
          ((jsOrInt q.page 1 - 1) * jsOrInt q.limit 10).toNat).take
            (jsOrInt q.limit 10).toNat = []
    rw [hdrop, List.take_nil]
  · show (((sortByBool
        (reviewFieldLe (reviewsSortOptions q.sortBy q.sortOrder).1
          (reviewsSortOptions q.sortBy q.sortOrder).2)
        (db.reviews.filter (reviewQueryMatches q))).drop
          ((jsOrInt q.page 1 - 1) * jsOrInt q.limit 10).toNat).take
            (jsOrInt q.limit 10).toNat).length = 0
    rw [hdrop, List.take_nil, List.length_nil]

/-- C6 witness: requesting page 5 / limit 10 over the one-review store. -/
theorem getAllReviews_page_beyond_last_witness :
    (1 ≤ jsOrInt qPage5.page 1 ∧ 1 ≤ jsOrInt qPage5.limit 10 ∧
      (dbC1.reviews.filter (reviewQueryMatches qPage5)).length ≤
        ((jsOrInt qPage5.page 1 - 1) * jsOrInt qPage5.limit 10).toNat) ∧
    (getAllReviews true dbC1 qPage5).data = [] ∧
    (getAllReviews true dbC1 qPage5).count = 0 ∧
    (getAllReviews true dbC1 qPage5).pagination.current = jsOrInt qPage5.page 1 :=
  ⟨⟨by decide, by decide, by decide⟩,
   (getAllReviews_page_beyond_last dbC1 qPage5 (by decide) (by decide) (by decide)).1,
   (getAllReviews_page_beyond_last dbC1 qPage5 (by decide) (by decide) (by decide)).2.1,
   (getAllReviews_page_beyond_last dbC1 qPage5 (by decide) (by decide) (by decide)).2.2.1⟩

/-- C7 counterexample: the `[1,100]` limit range exists only in the
`queryValidation` schemas, which are attached to no route; a request with
`limit=500` reaches the controller unchecked and, over a store of 101
reviews, yields a single page of 101 items — more than 100. -/
theorem getAllReviews_limit_unclamped :
    (getAllReviews true dbBulk qLimit500).data.length = 101 ∧
    100 < (getAllReviews true dbBulk qLimit500).data.length := by
  refine ⟨by decide, by decide⟩

/-- C7 as amended: the effective page size is 10 when the limit parameter is
absent (or falsy after `parseInt`); any other supplied integer is used
exactly as given — no [1,100] clamp is applied anywhere on the path — and a
page never holds more items than that effective limit. -/
theorem getAllReviews_effective_limit :
    jsOrInt none 10 = 10 ∧
    (∀ v : Int, v ≠ 0 → jsOrInt (some v) 10 = v) ∧
    (∀ (c : Bool) (db : Db) (q : ReviewListQuery),
      (getAllReviews c db q).data.length ≤ (jsOrInt q.limit 10).toNat) := by
  refine ⟨rfl, ?_, ?_⟩
  · intro v hv
    simp [jsOrInt, hv]
  · intro c db q
    cases c with
    | false => simp [getAllReviews]
    | true =>
      show (((sortByBool
          (reviewFieldLe (reviewsSortOptions q.sortBy q.sortOrder).1
            (reviewsSortOptions q.sortBy q.sortOrder).2)
          (db.reviews.filter (reviewQueryMatches q))).drop
            ((jsOrInt q.page 1 - 1) * jsOrInt q.limit 10).toNat).take
              (jsOrInt q.limit 10).toNat).length ≤ (jsOrInt q.limit 10).toNat
      rw [List.length_take]
      exact min_le_left _ _

/-- C7 amended witness: the default at an absent limit and the raw use of
`limit=500`. -/
theorem getAllReviews_effective_limit_witness :
    jsOrInt none 10 = 10 ∧
    ((500 : Int) ≠ 0 ∧ jsOrInt (some 500) 10 = 500) ∧
    (getAllReviews true dbBulk qLimit500).data.length ≤ (jsOrInt qLimit500.limit 10).toNat :=
  ⟨getAllReviews_effective_limit.1,
   ⟨by decide, getAllReviews_effective_limit.2.1 500 (by decide)⟩,
   getAllReviews_effective_limit.2.2 true dbBulk qLimit500⟩

/-- C8: with the storage backend unreachable
(`mongoose.connection.readyState !== 1`), every list operation answers 200
with an empty data list, count 0 and an explanatory message, while every
mutation operation fails explicitly with a 503 error — shown both on the
transcribed connection gates of all sixteen CRUD handlers and on the fully
modelled review handlers. -/
theorem backend_unavailable_degradation :
    (∀ op : ApiOp, op.isListOp = true →
      (connGateResponse op).status = 200 ∧ (connGateResponse op).success = true ∧
      (connGateResponse op).count = some 0 ∧ (connGateResponse op).dataEmptyList = true ∧
      (connGateResponse op).message.isSome = true ∧ (connGateResponse op).error = none) ∧
    (∀ op : ApiOp, op.isMutationOp = true →
      (connGateResponse op).status = 503 ∧ (connGateResponse op).success = false ∧
      (connGateResponse op).error.isSome = true) ∧
    (∀ (db : Db) (q : ReviewListQuery),
      getAllReviews false db q =
        { status := 200, success := true, count := 0,
          pagination := { current := 1, total := 0, count := 0 }, data := [],
          message := some "Database not connected - returning empty results" }) ∧
    (∀ (a : Bool) (db : Db) (b : ReviewCreateBody) (nid now rid : Nat)
        (u : ReviewUpdateBody),
      (createReview false a db b nid now).1.status = 503 ∧
      (createReview false a db b nid now).1.success = false ∧
      (createReview false a db b nid now).2 = db ∧
      (updateReview false a db rid u).1.status = 503 ∧
      (updateReview false a db rid u).1.success = false ∧
      (updateReview false a db rid u).2 = db ∧
      (deleteReview false a db rid).1.status = 503 ∧
      (deleteReview false a db rid).1.success = false ∧
      (deleteReview false a db rid).2 = db) := by
  refine ⟨?_, ?_, fun db q => rfl, ?_⟩
  · intro op h
    cases op <;> simp_all [ApiOp.isListOp, connGateResponse]
  · intro op h
    cases op <;> simp_all [ApiOp.isMutationOp, connGateResponse]
  · intro a db b nid now rid u
    exact ⟨rfl, rfl, rfl, rfl, rfl, rfl, rfl, rfl, rfl⟩

/-- C8 witness: the gate behaviour at the reviews list and create gates. -/
theorem backend_unavailable_degradation_witness :
    ((connGateResponse ApiOp.getAllReviewsOp).status = 200 ∧
      (connGateResponse ApiOp.getAllReviewsOp).success = true ∧
      (connGateResponse ApiOp.getAllReviewsOp).count = some 0 ∧
      (connGateResponse ApiOp.getAllReviewsOp).dataEmptyList = true ∧
      (connGateResponse ApiOp.getAllReviewsOp).message.isSome = true ∧
      (connGateResponse ApiOp.getAllReviewsOp).error = none) ∧
    ((connGateResponse ApiOp.createReviewOp).status = 503 ∧
      (connGateResponse ApiOp.createReviewOp).success = false ∧
      (connGateResponse ApiOp.createReviewOp).error.isSome = true) :=
  ⟨backend_unavailable_degradation.1 ApiOp.getAllReviewsOp rfl,
   backend_unavailable_degradation.2.1 ApiOp.createReviewOp rfl⟩

/-- C10: the per-book review listing returns exactly the stored reviews
whose `book` reference matches the requested id and whose status is
'Published', ordered newest-first by creation time; no review with status
Pending, Hidden or Flagged ever appears in it. -/
theorem getReviewsByBook_published_only_newest_first :
    ∀ (db : Db) (bookId : Nat),
      (∀ r : ReviewDoc, r ∈ (getReviewsByBook true db bookId).data ↔
        (r ∈ db.reviews ∧ r.book = some bookId ∧ r.status = "Published")) ∧
      (getReviewsByBook true db bookId).data.Pairwise
        (fun a b => b.createdAt ≤ a.createdAt) ∧
      (∀ r ∈ (getReviewsByBook true db bookId).data,
        r.status ≠ "Pending" ∧ r.status ≠ "Hidden" ∧ r.status ≠ "Flagged") := by
  intro db bookId
  have hmem : ∀ r : ReviewDoc, r ∈ (getReviewsByBook true db bookId).data ↔
      (r ∈ db.reviews ∧ r.book = some bookId ∧ r.status = "Published") := by
    intro r
    show r ∈ sortByBool _ (db.reviews.filter _) ↔ _
    rw [mem_sortByBool, List.mem_filter]
    simp [and_assoc]
  refine ⟨hmem, ?_, ?_⟩
  · have hp := pairwise_sortByBool
      (fun a b : ReviewDoc => decide (b.createdAt ≤ a.createdAt))
      (fun x y => by
        rcases Nat.le_total y.createdAt x.createdAt with h | h
        · exact Or.inl (decide_eq_true h)
        · exact Or.inr (decide_eq_true h))
      (fun x y z hxy hyz =>
        decide_eq_true (Nat.le_trans (of_decide_eq_true hyz) (of_decide_eq_true hxy)))
      (db.reviews.filter fun r => r.book == some bookId && r.status == "Published")
    exact hp.imp fun h => of_decide_eq_true h
  · intro r hr
    have hs := ((hmem r).mp hr).2.2
    rw [hs]
    refine ⟨by decide, by decide, by decide⟩

/-- C10 witness: the one Published review of book 1 is listed. -/
theorem getReviewsByBook_published_only_newest_first_witness :
    revPub ∈ (getReviewsByBook true dbC1 1).data :=
  ((getReviewsByBook_published_only_newest_first dbC1 1).1 revPub).mpr
    ⟨by decide, rfl, rfl⟩

end Cse341
